import Mathlib

/-!
Verification of the black-hole-simulation core: a shallow embedding of the
configuration manager, the performance monitor and its auto-degradation
governor, the animation-loop lifecycle, the particle system physics, the
accretion-disk vertex rotation and the gravitational-lensing deflection,
together with theorems settling the specification's testable properties.

JavaScript numbers are modelled as rationals where the code only uses
field/comparison arithmetic (configuration, frame times) and as reals where
the code uses sqrt / trigonometry (particle physics, shaders).  `Math.random()`
draws are modelled by an ambient stream `u : ℕ → ℝ` of values in `[0,1)`;
each particle index consumes its own block of seven draws, which loses no
generality for statements quantified over all streams.
-/

/-! ### ConfigurationManager (src/engine/ConfigurationManager.js) -/

/-- Bounds record for one configuration parameter (`this.bounds` entries). -/
structure ParamBounds where
  min : ℚ
  max : ℚ
deriving DecidableEq

/-- Source `this.bounds.particleCount = { min: 100, max: 5000 }`. -/
def bounds_particleCount : ParamBounds := ⟨100, 5000⟩

/-- Source `this.bounds.diskRotationSpeed = { min: 0.1, max: 5.0 }`. -/
def bounds_diskRotationSpeed : ParamBounds := ⟨0.1, 5⟩

/-- Source `this.bounds.lensingIntensity = { min: 0.0, max: 2.0 }`. -/
def bounds_lensingIntensity : ParamBounds := ⟨0, 2⟩

/-- Source `this.bounds.cameraSensitivity = { min: 0.1, max: 2.0 }`. -/
def bounds_cameraSensitivity : ParamBounds := ⟨0.1, 2⟩

/-- Source `this.bounds.bloomStrength = { min: 0.0, max: 3.0 }`. -/
def bounds_bloomStrength : ParamBounds := ⟨0, 3⟩

/-- ConfigurationManager._clampValue.  A JavaScript input is modelled as
`Option ℚ`: `some v` when `Number(value)` parses to `v`, `none` when it is
`NaN` (non-numeric).  `isNaN` returns the minimum; otherwise
`Math.max(min, Math.min(max, numValue))`. -/
def clampValue (value : Option ℚ) (mn mx : ℚ) : ℚ :=
  match value with
  | none => mn
  | some numValue => max mn (min mx numValue)

/-- A JavaScript value held in a numeric configuration field after the
spread-merge `{...this.config, ...updates}`: the value `undefined` (a key
explicitly set to `undefined` overwrites the field with `undefined`), a
defined value whose `Number(·)` parse is `NaN`, or a number. -/
inductive JSNum where
  | undef
  | nan
  | num (q : ℚ)
deriving DecidableEq

/-- Fully resolved configuration (every field defined): the state of an
initialized manager, as produced by `initialize` from the defaults. -/
structure SimConfig where
  particleCount : ℚ
  diskRotationSpeed : ℚ
  lensingIntensity : ℚ
  cameraSensitivity : ℚ
  bloomStrength : ℚ
  performanceMode : String
deriving DecidableEq

/-- The merged object `{...this.config, ...updates}`: every key present, but
a field holds `undefined` when the update set it so explicitly
(`performanceMode` is `none` when `undefined`). -/
structure RawConfig where
  particleCount : JSNum
  diskRotationSpeed : JSNum
  lensingIntensity : JSNum
  cameraSensitivity : JSNum
  bloomStrength : JSNum
  performanceMode : Option String
deriving DecidableEq

/-- A configuration update object: each key may be absent (`none`) or
present with any JavaScript value, including an explicit `undefined`
(`some JSNum.undef`); `performanceMode` may be absent, explicitly
`undefined` (`some none`), or any string. -/
structure ConfigUpdates where
  particleCount : Option JSNum := none
  diskRotationSpeed : Option JSNum := none
  lensingIntensity : Option JSNum := none
  cameraSensitivity : Option JSNum := none
  bloomStrength : Option JSNum := none
  performanceMode : Option (Option String) := none
deriving DecidableEq

/-- Source `const validModes = ['high', 'medium', 'low']`. -/
def validModes : List String := ["high", "medium", "low"]

/-- One numeric field of ConfigurationManager._validateAndClamp: the
`!== undefined` guard skips an undefined field entirely, so it stays
`undefined` in the returned object; a defined field goes through
`_clampValue` (`NaN` parse to the minimum, numbers clamped). -/
def clampField (value : JSNum) (b : ParamBounds) : JSNum :=
  match value with
  | JSNum.undef => JSNum.undef
  | JSNum.nan => JSNum.num (clampValue none b.min b.max)
  | JSNum.num q => JSNum.num (clampValue (some q) b.min b.max)

/-- ConfigurationManager._validateAndClamp: clamp each numeric field that is
not `undefined`, leave `undefined` fields untouched, and validate a defined
`performanceMode` against the valid modes (invalid becomes "high"). -/
def validateAndClamp (config : RawConfig) : RawConfig :=
  { particleCount := clampField config.particleCount bounds_particleCount
    diskRotationSpeed := clampField config.diskRotationSpeed bounds_diskRotationSpeed
    lensingIntensity := clampField config.lensingIntensity bounds_lensingIntensity
    cameraSensitivity := clampField config.cameraSensitivity bounds_cameraSensitivity
    bloomStrength := clampField config.bloomStrength bounds_bloomStrength
    performanceMode :=
      match config.performanceMode with
      | none => none
      | some m => some (if m ∈ validModes then m else "high") }

/-- The spread-merge `{...this.config, ...updates}` of `updateConfig`: a key
present in the updates overwrites the field with its value — also when that
value is `undefined`; an absent key keeps the config's number. -/
def mergeConfig (config : SimConfig) (updates : ConfigUpdates) : RawConfig :=
  { particleCount := updates.particleCount.getD (JSNum.num config.particleCount)
    diskRotationSpeed := updates.diskRotationSpeed.getD (JSNum.num config.diskRotationSpeed)
    lensingIntensity := updates.lensingIntensity.getD (JSNum.num config.lensingIntensity)
    cameraSensitivity := updates.cameraSensitivity.getD (JSNum.num config.cameraSensitivity)
    bloomStrength := updates.bloomStrength.getD (JSNum.num config.bloomStrength)
    performanceMode := updates.performanceMode.getD (some config.performanceMode) }

/-- ConfigurationManager.updateConfig on an initialized manager: merge the
updates over the current config, then validate and clamp.  (Listener
notification has no effect on the returned configuration.) -/
def updateConfig (config : SimConfig) (updates : ConfigUpdates) : RawConfig :=
  validateAndClamp (mergeConfig config updates)

/-- The default configuration set up by `ConfigurationManager.initialize`. -/
def defaultConfig : SimConfig :=
  { particleCount := 1000
    diskRotationSpeed := 1
    lensingIntensity := 1
    cameraSensitivity := 1
    bloomStrength := 1.5
    performanceMode := "high" }

/-- Per-field clamping behaviour of one `updateConfig` call: an update key
explicitly `undefined` leaves the field `undefined` in the result; a defined
non-numeric update resolves to the parameter's minimum; a numeric update
resolves to its clamp into the documented bounds; and a field not overridden
with `undefined` ends defined and within bounds. -/
def fieldClampSpec (upd : Option JSNum) (b : ParamBounds) (res : JSNum) : Prop :=
  (upd = some JSNum.undef → res = JSNum.undef) ∧
  (upd = some JSNum.nan → res = JSNum.num b.min) ∧
  (∀ q, upd = some (JSNum.num q) → res = JSNum.num (max b.min (min b.max q))) ∧
  (upd ≠ some JSNum.undef → ∃ r, res = JSNum.num r ∧ b.min ≤ r ∧ r ≤ b.max)

/-! ### PerformanceMonitor (src/utils/PerformanceMonitor.js)

`recordFrame` is parametrised by the frame duration it would measure from
`performance.now()`; `lastFrameTime` is therefore not part of the state. -/

/-- Observable state of a `PerformanceMonitor`. -/
structure Monitor where
  windowSize : ℕ
  frameTimes : List ℚ
  isMonitoring : Bool
  isDegraded : Bool
  degradationFrameCount : ℕ
deriving DecidableEq

/-- Source `this.targetFrameTime = 33.33` (30 FPS in milliseconds). -/
def targetFrameTime : ℚ := 33.33

/-- Source `this.degradationThreshold = 50`. -/
def degradationThreshold : ℚ := 50

/-- Source `this.degradationFrameThreshold = 30` consecutive slow frames. -/
def degradationFrameThreshold : ℕ := 30

/-- Constructor `new PerformanceMonitor(windowSize)`. -/
def mkMonitor (windowSize : ℕ) : Monitor :=
  { windowSize := windowSize
    frameTimes := []
    isMonitoring := false
    isDegraded := false
    degradationFrameCount := 0 }

/-- PerformanceMonitor.start. -/
def startMonitor (m : Monitor) : Monitor :=
  { m with isMonitoring := true, frameTimes := [] }

/-- PerformanceMonitor.stop. -/
def stopMonitor (m : Monitor) : Monitor :=
  { m with isMonitoring := false }

/-- PerformanceMonitor.reset. -/
def resetMonitor (m : Monitor) : Monitor :=
  { m with frameTimes := [], isDegraded := false, degradationFrameCount := 0 }

/-- PerformanceMonitor.getAverageFrameTime. -/
def getAverageFrameTime (m : Monitor) : ℚ :=
  if m.frameTimes.length = 0 then 0
  else m.frameTimes.sum / m.frameTimes.length

/-- The recommendation object of `getPerformanceRecommendation`. -/
structure Recommendation where
  action : String
  reduction : ℚ
deriving DecidableEq

/-- PerformanceMonitor.getPerformanceRecommendation: severity tiers keyed on
the rolling average frame time. -/
def getPerformanceRecommendation (m : Monitor) : Recommendation :=
  let avgFrameTime := getAverageFrameTime m
  if 50 < avgFrameTime then ⟨"reduce_particles_aggressive", 0.5⟩
  else if 40 < avgFrameTime then ⟨"reduce_particles_moderate", 0.25⟩
  else if 33.33 < avgFrameTime then ⟨"reduce_particles_mild", 0.15⟩
  else ⟨"none", 0⟩

/-- Callback invocations observable from `checkPerformance` (both callbacks
are registered by `BlackHoleSimulation.setupPerformanceMonitoring`). -/
inductive PerfEvent where
  | degradation (averageFrameTime : ℚ) (recommendation : Recommendation)
  | recovery (averageFrameTime : ℚ)
deriving DecidableEq

/-- PerformanceMonitor.checkPerformance: count consecutive slow frames,
fire the degradation transition, then the recovery transition. -/
def checkPerformance (m : Monitor) (currentFrameTime : ℚ) : Monitor × List PerfEvent :=
  let m1 :=
    if degradationThreshold < currentFrameTime then
      { m with degradationFrameCount := m.degradationFrameCount + 1 }
    else
      { m with degradationFrameCount := 0 }
  let d :=
    if m1.isDegraded = false ∧ degradationFrameThreshold ≤ m1.degradationFrameCount then
      ({ m1 with isDegraded := true },
       [PerfEvent.degradation (getAverageFrameTime m1) (getPerformanceRecommendation m1)])
    else (m1, [])
  let r :=
    if d.1.isDegraded = true ∧ d.1.degradationFrameCount = 0 ∧
        getAverageFrameTime d.1 < targetFrameTime then
      ({ d.1 with isDegraded := false }, [PerfEvent.recovery (getAverageFrameTime d.1)])
    else (d.1, [])
  (r.1, d.2 ++ r.2)

/-- PerformanceMonitor.recordFrame with the measured frame duration: no-op
unless monitoring; push into the rolling window, evict the oldest sample when
the window overflows, then check performance. -/
def recordFrame (m : Monitor) (frameTime : ℚ) : Monitor × List PerfEvent :=
  if m.isMonitoring = false then (m, [])
  else
    let pushed := m.frameTimes ++ [frameTime]
    let kept := if m.windowSize < pushed.length then pushed.tail else pushed
    checkPerformance { m with frameTimes := kept } frameTime

/-- One operation on a `PerformanceMonitor`. -/
inductive MonOp where
  | start
  | stop
  | record (frameTime : ℚ)
  | reset
deriving DecidableEq

/-- Apply one operation to a monitor. -/
def monApply (m : Monitor) : MonOp → Monitor
  | MonOp.start => startMonitor m
  | MonOp.stop => stopMonitor m
  | MonOp.record frameTime => (recordFrame m frameTime).1
  | MonOp.reset => resetMonitor m

/-- Run a sequence of operations from a given monitor state. -/
def monRun (m : Monitor) (ops : List MonOp) : Monitor :=
  ops.foldl monApply m

/-! ### Performance governor (BlackHoleSimulation.setupPerformanceMonitoring)

The degradation callback reads the current particle count from the
configuration, lowers it by the recommended reduction with a floor of 100,
and pushes it back through `updateConfig` (which clamps it to the particle
count bounds); the recovery callback only notifies. -/

/-- Monitor plus the configured particle count it governs. -/
structure GovState where
  monitor : Monitor
  particleCount : ℚ
deriving DecidableEq

/-- The particle-count reduction applied by the degradation callback:
`Math.max(100, Math.floor(current * (1 - reduction)))`, then clamped by
`updateConfig` to the documented particle-count bounds. -/
def reduceParticleCount (current : ℚ) (recommendation : Recommendation) : ℚ :=
  if recommendation.action ≠ "none" then
    let newParticleCount : ℚ := max 100 ((⌊current * (1 - recommendation.reduction)⌋ : ℤ) : ℚ)
    clampValue (some newParticleCount) bounds_particleCount.min bounds_particleCount.max
  else current

/-- Effect of one callback invocation on the configured particle count. -/
def applyPerfEvent (current : ℚ) : PerfEvent → ℚ
  | PerfEvent.degradation _ recommendation => reduceParticleCount current recommendation
  | PerfEvent.recovery _ => current

/-- One frame of the governed system: record the frame, then run the
callbacks fired by the monitor. -/
def stepGov (g : GovState) (frameTime : ℚ) : GovState :=
  let rec' := recordFrame g.monitor frameTime
  { monitor := rec'.1, particleCount := rec'.2.foldl applyPerfEvent g.particleCount }

/-- Feed a sequence of frame durations through the governed system. -/
def feedGov (g : GovState) (frameTimes : List ℚ) : GovState :=
  frameTimes.foldl stepGov g

/-- A freshly started governed system: `new PerformanceMonitor(60)` as in
`setupPerformanceMonitoring`, started, with configured particle count `c`. -/
def startGov (c : ℚ) : GovState :=
  { monitor := startMonitor (mkMonitor 60), particleCount := c }

/-! ### Animation-loop lifecycle (BlackHoleSimulation.stop / animate) -/

/-- The lifecycle slice of `BlackHoleSimulation` state observable by `stop`
and `animate`: the running flag, the pending animation-frame handle, the
monitoring flag, and counters for the physics updates and renders performed. -/
structure SimLoopState where
  isRunning : Bool
  animationFrameId : Option ℕ
  nextFrameId : ℕ
  monitorRunning : Bool
  updateCount : ℕ
  renderCount : ℕ
deriving DecidableEq

/-- BlackHoleSimulation.stop: clear the running flag, cancel any scheduled
frame, stop the performance monitor. -/
def simStop (s : SimLoopState) : SimLoopState :=
  let s1 := { s with isRunning := false }
  let s2 :=
    match s1.animationFrameId with
    | some _ => { s1 with animationFrameId := none }
    | none => s1
  { s2 with monitorRunning := false }

/-- BlackHoleSimulation.animate, one invocation of the callback: return
immediately when not running; otherwise schedule the next frame (fresh
handle), perform the physics update and the render. -/
def simAnimate (s : SimLoopState) : SimLoopState :=
  if s.isRunning = false then s
  else
    let s1 := { s with animationFrameId := some s.nextFrameId, nextFrameId := s.nextFrameId + 1 }
    { s1 with updateCount := s1.updateCount + 1, renderCount := s1.renderCount + 1 }

/-! ### Particle system (src/components/ParticleSystem.js)

Positions, velocities and colors are modelled as real 3-vectors, a particle
as one record, and the buffer arrays as a `List Particle`.  The random
stream `u : ℕ → ℝ` stands for successive `Math.random()` draws; the reset of
particle `i` reads the seven draws `u (7*i), …, u (7*i+6)`. -/

/-- A 3-component vector (`THREE.Vector3` / one slot of a Float32 buffer). -/
structure Vec3 where
  x : ℝ
  y : ℝ
  z : ℝ

/-- Per-particle state: one slot of the position/velocity/color/size buffers. -/
structure Particle where
  pos : Vec3
  vel : Vec3
  color : Vec3
  size : ℝ

/-- The zeroed particle slot (a freshly allocated Float32Array entry before
any reset), used as the out-of-range default for buffer reads. -/
def defaultParticle : Particle :=
  ⟨⟨0, 0, 0⟩, ⟨0, 0, 0⟩, ⟨0, 0, 0⟩, 0⟩

/-- The distance computed throughout the source:
`Math.sqrt(dx*dx + dy*dy + dz*dz)` for the displacement from `p` to `q`. -/
noncomputable def distanceTo (p q : Vec3) : ℝ :=
  Real.sqrt ((q.x - p.x) * (q.x - p.x) + (q.y - p.y) * (q.y - p.y) + (q.z - p.z) * (q.z - p.z))

/-- ParticleSystem.resetParticle: spherical spawn position (azimuth
`θ = 2π·U`, polar `φ = acos(2U−1)`, radius `spawnRadius + 2U`), small random
velocity, base color `(0.8, 0.6, 0.4)`, size `2 + 2U`. -/
noncomputable def resetParticle (spawnRadius : ℝ) (u : ℕ → ℝ) (k : ℕ) : Particle :=
  let theta := u k * Real.pi * 2
  let phi := Real.arccos (2 * u (k + 1) - 1)
  let radius := spawnRadius + u (k + 2) * 2
  { pos := ⟨radius * Real.sin phi * Real.cos theta,
            radius * Real.sin phi * Real.sin theta,
            radius * Real.cos phi⟩
    vel := ⟨(u (k + 3) - 0.5) * 0.1, (u (k + 4) - 0.5) * 0.1, (u (k + 5) - 0.5) * 0.1⟩
    color := ⟨0.8, 0.6, 0.4⟩
    size := 2 + u (k + 6) * 2 }

/-- Source `const G = 5.0` (gravitational constant scaled for visual effect). -/
def G : ℝ := 5

/-- Source `const blackHoleMass = 10.0`. -/
def blackHoleMass : ℝ := 10

/-- Source `const diskInnerRadius = 1.5` in the particle update loop. -/
def diskInnerRadius : ℝ := 1.5

/-- Source `const diskOuterRadius = 4.0` in the particle update loop. -/
def diskOuterRadius : ℝ := 4

/-- One iteration of the loop body of ParticleSystem.update for the particle
at block `k` of the random stream: respawn inside the event horizon,
otherwise integrate gravity, the spiral tangential term, the position, the
speed-based color, and the disk-proximity illumination (which reads the
pre-integration position, as the source captures `px, py, pz` before the
position write-back). -/
noncomputable def updateParticle (eventHorizonRadius spawnRadius deltaTime : ℝ)
    (blackHolePosition : Vec3) (u : ℕ → ℝ) (k : ℕ) (p : Particle) : Particle :=
  let px := p.pos.x
  let py := p.pos.y
  let pz := p.pos.z
  let dx := blackHolePosition.x - px
  let dy := blackHolePosition.y - py
  let dz := blackHolePosition.z - pz
  let distanceSquared := dx * dx + dy * dy + dz * dz
  let distance := Real.sqrt distanceSquared
  if distance < eventHorizonRadius then
    resetParticle spawnRadius u k
  else
    let acceleration := G * blackHoleMass / distanceSquared
    let dirX := dx / distance
    let dirY := dy / distance
    let dirZ := dz / distance
    let vx := p.vel.x + dirX * acceleration * deltaTime
    let vy := p.vel.y + dirY * acceleration * deltaTime
    let vz := p.vel.z + dirZ * acceleration * deltaTime
    let tangentX := py * dirZ - pz * dirY
    let tangentY := pz * dirX - px * dirZ
    let tangentZ := px * dirY - py * dirX
    let tangentLength :=
      Real.sqrt (tangentX * tangentX + tangentY * tangentY + tangentZ * tangentZ)
    let spiralStrength := 0.5 / distance
    let vx2 := if 0.001 < tangentLength then
        vx + tangentX / tangentLength * spiralStrength * deltaTime else vx
    let vy2 := if 0.001 < tangentLength then
        vy + tangentY / tangentLength * spiralStrength * deltaTime else vy
    let vz2 := if 0.001 < tangentLength then
        vz + tangentZ / tangentLength * spiralStrength * deltaTime else vz
    let nx := px + vx2 * deltaTime
    let ny := py + vy2 * deltaTime
    let nz := pz + vz2 * deltaTime
    let speed := Real.sqrt (vx2 * vx2 + vy2 * vy2 + vz2 * vz2)
    let normalizedSpeed := min (speed / 10) 1
    let cr := 0.8 + normalizedSpeed * 0.2
    let cg := 0.6 + normalizedSpeed * 0.4
    let cb := 0.4 + normalizedSpeed * 0.6
    let distanceToDisk := |py|
    let radialDistance := Real.sqrt (px * px + pz * pz)
    let nearDisk : Prop :=
      diskInnerRadius < radialDistance ∧ radialDistance < diskOuterRadius ∧ distanceToDisk < 1
    let diskProximity := 1 - distanceToDisk / 1
    let illumination := diskProximity * 0.5
    { pos := ⟨nx, ny, nz⟩
      vel := ⟨vx2, vy2, vz2⟩
      color :=
        if nearDisk then
          ⟨cr + illumination * 0.8, cg + illumination * 0.4, cb + illumination * 0.1⟩
        else ⟨cr, cg, cb⟩
      size := p.size }

/-- The particle loop of ParticleSystem.update, starting at particle index
`i`. -/
noncomputable def updateLoop (eventHorizonRadius spawnRadius deltaTime : ℝ)
    (blackHolePosition : Vec3) (u : ℕ → ℝ) : ℕ → List Particle → List Particle
  | _, [] => []
  | i, p :: rest =>
      updateParticle eventHorizonRadius spawnRadius deltaTime blackHolePosition u (7 * i) p ::
        updateLoop eventHorizonRadius spawnRadius deltaTime blackHolePosition u (i + 1) rest

/-- ParticleSystem.update over the whole particle list. -/
noncomputable def particleSystemUpdate (eventHorizonRadius spawnRadius deltaTime : ℝ)
    (blackHolePosition : Vec3) (u : ℕ → ℝ) (ps : List Particle) : List Particle :=
  updateLoop eventHorizonRadius spawnRadius deltaTime blackHolePosition u 0 ps

/-- ParticleSystem.setParticleCount: no-op at the same count, copy the
overlapping prefix, reset newly added indices when growing, truncate when
shrinking. -/
noncomputable def setParticleCount (spawnRadius : ℝ) (u : ℕ → ℝ) (count : ℕ)
    (ps : List Particle) : List Particle :=
  if count = ps.length then ps
  else if ps.length < count then
    ps ++ (List.range (count - ps.length)).map (fun j => resetParticle spawnRadius u (7 * (ps.length + j)))
  else
    ps.take count

/-! ### Gravitational lensing (src/components/GravitationalLensing.js,
fragment shader function `calculateDeflection`) -/

/-- GLSL `cross(a, b)`. -/
def cross3 (a b : Vec3) : Vec3 :=
  ⟨a.y * b.z - a.z * b.y, a.z * b.x - a.x * b.z, a.x * b.y - a.y * b.x⟩

/-- GLSL `length(v)`. -/
noncomputable def length3 (v : Vec3) : ℝ :=
  Real.sqrt (v.x * v.x + v.y * v.y + v.z * v.z)

/-- GLSL `a - b` componentwise. -/
def sub3 (a b : Vec3) : Vec3 :=
  ⟨a.x - b.x, a.y - b.y, a.z - b.z⟩

/-- GLSL `normalize(v)` = `v / length(v)`. -/
noncomputable def normalize3 (v : Vec3) : Vec3 :=
  ⟨v.x / length3 v, v.y / length3 v, v.z / length3 v⟩

/-- GLSL scalar multiple `s * v`. -/
def smul3 (s : ℝ) (v : Vec3) : Vec3 :=
  ⟨s * v.x, s * v.y, s * v.z⟩

/-- The lensing fragment-shader function `calculateDeflection(rayPos, rayDir,
bhPos, rs)`: zero inside `1.1·rs`, otherwise a deflection toward the black
hole of magnitude `rs²/d³ · rs / max(impactParam, rs·0.5)`. -/
noncomputable def calculateDeflection (rayPos rayDir bhPos : Vec3) (rs : ℝ) : Vec3 :=
  let toBH := sub3 bhPos rayPos
  let distance := length3 toBH
  if distance < rs * 1.1 then ⟨0, 0, 0⟩
  else
    let deflectionMagnitude := rs * rs / (distance * distance * distance)
    let towardBH := normalize3 toBH
    let impactParam := distance * length3 (cross3 rayDir towardBH)
    let deflectionMagnitude2 := deflectionMagnitude * (rs / max impactParam (rs * 0.5))
    smul3 deflectionMagnitude2 towardBH

/-! ### Accretion disk vertex stage (AccretionDisk.createShaderMaterial) -/

/-- The angular velocity computed by the accretion-disk vertex shader:
`rotationSpeed / pow(radius, 1.5)` (Keplerian differential rotation). -/
noncomputable def angularVelocity (rotationSpeed radius : ℝ) : ℝ :=
  rotationSpeed / Real.rpow radius 1.5

/-! ### Theorems -/

/-- Shared helper: the clamp never goes below the minimum. -/
theorem le_clampValue (x : Option ℚ) (mn mx : ℚ) : mn ≤ clampValue x mn mx := by
  cases x with
  | none => simp [clampValue]
  | some v => exact le_max_left _ _

/-- Shared helper: the clamp never exceeds the maximum, given ordered bounds. -/
theorem clampValue_le (x : Option ℚ) (mn mx : ℚ) (h : mn ≤ mx) :
    clampValue x mn mx ≤ mx := by
  cases x with
  | none => simpa [clampValue] using h
  | some v => exact max_le h (min_le_left _ _)

/-- C5: for every parameter with documented bounds `mn ≤ mx` and every input
`x` (numeric or not), clamping is idempotent — re-clamping the clamped value
changes nothing — and the clamped value always lies within `[mn, mx]`. -/
theorem claim_C5_clamp_idempotent (mn mx : ℚ) (h : mn ≤ mx) (x : Option ℚ) :
    clampValue (some (clampValue x mn mx)) mn mx = clampValue x mn mx ∧
    mn ≤ clampValue x mn mx ∧ clampValue x mn mx ≤ mx := by
  refine ⟨?_, le_clampValue x mn mx, clampValue_le x mn mx h⟩
  show max mn (min mx (clampValue x mn mx)) = clampValue x mn mx
  rw [min_eq_right (clampValue_le x mn mx h), max_eq_right (le_clampValue x mn mx)]

/-- C5 witness: the particle-count bounds `[100, 5000]` with the out-of-range
input `7000`. -/
theorem claim_C5_clamp_idempotent_witness :
    (100 : ℚ) ≤ 5000 ∧
    (clampValue (some (clampValue (some 7000) 100 5000)) 100 5000
        = clampValue (some 7000) 100 5000 ∧
      (100 : ℚ) ≤ clampValue (some 7000) 100 5000 ∧
      clampValue (some 7000) 100 5000 ≤ 5000) :=
  ⟨by norm_num, claim_C5_clamp_idempotent 100 5000 (by norm_num) (some 7000)⟩

/-- C3: for every ray position and direction, black-hole position and
Schwarzschild radius `rs > 0`, `calculateDeflection` returns the zero vector
whenever the distance to the black hole is below `1.1·rs`. -/
theorem claim_C3_deflection_guard (rayPos rayDir bhPos : Vec3) (rs : ℝ)
    (hrs : 0 < rs) (h : length3 (sub3 bhPos rayPos) < rs * 1.1) :
    calculateDeflection rayPos rayDir bhPos rs = ⟨0, 0, 0⟩ := by
  simp only [calculateDeflection]
  rw [if_pos h]

/-- C3 witness: a ray sitting at the black-hole position with `rs = 1`. -/
theorem claim_C3_deflection_guard_witness :
    (0 : ℝ) < 1 ∧ length3 (sub3 ⟨0, 0, 0⟩ ⟨0, 0, 0⟩) < 1 * 1.1 ∧
    calculateDeflection ⟨0, 0, 0⟩ ⟨1, 0, 0⟩ ⟨0, 0, 0⟩ 1 = ⟨0, 0, 0⟩ := by
  have h : length3 (sub3 ⟨0, 0, 0⟩ ⟨0, 0, 0⟩) < (1 : ℝ) * 1.1 := by
    simp [length3, sub3]
    norm_num
  exact ⟨by norm_num, h, claim_C3_deflection_guard _ _ _ _ (by norm_num) h⟩

/-- C4: Keplerian ordering — for radii `r1 < r2` within the disk band and any
positive rotation speed, the vertex-stage angular velocity at `r1` strictly
exceeds that at `r2`. -/
theorem claim_C4_keplerian_ordering (innerRadius outerRadius rotationSpeed r1 r2 : ℝ)
    (hinner : 0 < innerRadius) (h1 : innerRadius ≤ r1) (h12 : r1 < r2)
    (h2 : r2 ≤ outerRadius) (hspeed : 0 < rotationSpeed) :
    angularVelocity rotationSpeed r2 < angularVelocity rotationSpeed r1 := by
  unfold angularVelocity
  have hr1 : 0 < r1 := lt_of_lt_of_le hinner h1
  have hp1 : 0 < Real.rpow r1 1.5 := Real.rpow_pos_of_pos hr1 _
  have hlt : Real.rpow r1 1.5 < Real.rpow r2 1.5 :=
    Real.rpow_lt_rpow hr1.le h12 (by norm_num)
  exact div_lt_div_of_pos_left hspeed hp1 hlt

/-- C4 witness: the default disk band `[1.5, 4]` with radii `2 < 3` and unit
rotation speed. -/
theorem claim_C4_keplerian_ordering_witness :
    (0 : ℝ) < 1.5 ∧ (1.5 : ℝ) ≤ 2 ∧ (2 : ℝ) < 3 ∧ (3 : ℝ) ≤ 4 ∧ (0 : ℝ) < 1 ∧
    angularVelocity 1 3 < angularVelocity 1 2 :=
  ⟨by norm_num, by norm_num, by norm_num, by norm_num, by norm_num,
    claim_C4_keplerian_ordering 1.5 4 1 2 3 (by norm_num) (by norm_num) (by norm_num)
      (by norm_num) (by norm_num)⟩

/-- C9: `stop` is idempotent, and an `animate` callback invoked after `stop`
leaves the state untouched — it performs no physics update, no render, and
schedules no further frame. -/
theorem claim_C9_stop_idempotent_no_tick (s : SimLoopState) :
    simStop (simStop s) = simStop s ∧ simAnimate (simStop s) = simStop s := by
  cases h : s.animationFrameId <;> simp [simStop, simAnimate, h]

/-- Shared helper: `checkPerformance` never touches the rolling window, the
window size, or the monitoring flag. -/
theorem checkPerformance_preserves (m : Monitor) (t : ℚ) :
    ((checkPerformance m t).1).frameTimes = m.frameTimes ∧
    ((checkPerformance m t).1).windowSize = m.windowSize ∧
    ((checkPerformance m t).1).isMonitoring = m.isMonitoring := by
  simp only [checkPerformance]
  split_ifs <;> simp

/-- Shared helper: the rolling window after `recordFrame`, when monitoring:
push the sample and evict the oldest when the window overflows. -/
theorem recordFrame_frameTimes (m : Monitor) (t : ℚ) (h : m.isMonitoring = true) :
    ((recordFrame m t).1).frameTimes =
      if m.windowSize < (m.frameTimes ++ [t]).length then (m.frameTimes ++ [t]).tail
      else m.frameTimes ++ [t] := by
  simp only [recordFrame, h]
  split_ifs <;> simp_all [checkPerformance_preserves]


/-- Shared helper: `recordFrame` while monitoring is `checkPerformance` on
the monitor with the sample pushed into the (possibly evicted) window. -/
theorem recordFrame_eq (m : Monitor) (t : ℚ) (h : m.isMonitoring = true) :
    recordFrame m t = checkPerformance { m with frameTimes :=
      if m.windowSize < (m.frameTimes ++ [t]).length then (m.frameTimes ++ [t]).tail
      else m.frameTimes ++ [t] } t := by
  unfold recordFrame
  rw [if_neg (by simp [h])]

/-- Shared helper: one monitor operation keeps the window within bounds and
preserves the window size. -/
theorem monApply_window_bound (m : Monitor) (op : MonOp)
    (h : m.frameTimes.length ≤ m.windowSize) :
    (monApply m op).frameTimes.length ≤ (monApply m op).windowSize ∧
    (monApply m op).windowSize = m.windowSize := by
  cases op with
  | start => simp [monApply, startMonitor]
  | stop => simpa [monApply, stopMonitor] using h
  | reset => simp [monApply, resetMonitor]
  | record t =>
    cases hm : m.isMonitoring with
    | false => simpa [monApply, recordFrame, hm] using h
    | true =>
      have hw : ((recordFrame m t).1).windowSize = m.windowSize := by
        rw [recordFrame_eq m t hm]
        exact (checkPerformance_preserves _ _).2.1
      have hf : ((recordFrame m t).1).frameTimes.length ≤ m.windowSize := by
        rw [recordFrame_frameTimes m t hm]
        split_ifs with hlen
        · simp only [List.length_tail, List.length_append, List.length_singleton]
          omega
        · simp only [List.length_append, List.length_singleton] at hlen ⊢
          omega
      exact ⟨by simpa [monApply, hw] using hf, hw⟩

/-- C10: starting from a freshly constructed monitor with window size `w`,
no operation sequence can make the stored sample count exceed `w`; moreover
`start` and `reset` always empty the window, and `recordFrame` (while
monitoring) pushes the sample and evicts the oldest exactly when the window
would overflow. -/
theorem claim_C10_window_invariant (w : ℕ) (ops : List MonOp) :
    (monRun (mkMonitor w) ops).frameTimes.length ≤ w ∧
    (∀ m : Monitor, (startMonitor m).frameTimes = [] ∧ (resetMonitor m).frameTimes = []) ∧
    (∀ (m : Monitor) (t : ℚ), m.isMonitoring = true →
      ((recordFrame m t).1).frameTimes =
        if m.windowSize < (m.frameTimes ++ [t]).length then (m.frameTimes ++ [t]).tail
        else m.frameTimes ++ [t]) := by
  refine ⟨?_, fun m => ⟨rfl, rfl⟩, fun m t h => recordFrame_frameTimes m t h⟩
  have key : ∀ (l : List MonOp) (m : Monitor), m.frameTimes.length ≤ m.windowSize →
      (monRun m l).frameTimes.length ≤ (monRun m l).windowSize ∧
      (monRun m l).windowSize = m.windowSize := by
    intro l
    induction l with
    | nil => intro m h; exact ⟨h, rfl⟩
    | cons op rest ih =>
      intro m h
      have hstep := monApply_window_bound m op h
      have hrest := ih (monApply m op) hstep.1
      exact ⟨hrest.1, hrest.2.trans hstep.2⟩
  have h0 : (mkMonitor w).frameTimes.length ≤ (mkMonitor w).windowSize := by
    simp [mkMonitor]
  have hrun := key ops (mkMonitor w) h0
  calc (monRun (mkMonitor w) ops).frameTimes.length
      ≤ (monRun (mkMonitor w) ops).windowSize := hrun.1
    _ = w := hrun.2

/-- Shared helper: the per-field clamp spec holds for every merged field
with ordered bounds. -/
theorem clampField_spec (upd : Option JSNum) (old : ℚ) (b : ParamBounds)
    (hb : b.min ≤ b.max) :
    fieldClampSpec upd b (clampField (upd.getD (JSNum.num old)) b) := by
  refine ⟨?_, ?_, ?_, ?_⟩
  · intro h; rw [h]; rfl
  · intro h; rw [h]; rfl
  · intro q h; rw [h]; rfl
  · intro h
    cases upd with
    | none =>
      exact ⟨clampValue (some old) b.min b.max, rfl, le_clampValue _ _ _,
        clampValue_le _ _ _ hb⟩
    | some v =>
      cases v with
      | undef => exact absurd rfl h
      | nan => exact ⟨b.min, rfl, le_refl _, hb⟩
      | num q =>
        exact ⟨clampValue (some q) b.min b.max, rfl, le_clampValue _ _ _,
          clampValue_le _ _ _ hb⟩

/-- C6 counterexample: updating the default configuration with
`{particleCount: undefined}` spreads the explicitly-undefined key over the
config, and the `!== undefined` guard in `_validateAndClamp` skips the
field, so the returned configuration's `particleCount` is `undefined` —
neither the parameter's minimum nor a numeric value in bounds. -/
theorem claim_C6_counterexample :
    (updateConfig defaultConfig { particleCount := some JSNum.undef }).particleCount
      = JSNum.undef ∧
    ¬ ((updateConfig defaultConfig { particleCount := some JSNum.undef }).particleCount
      = JSNum.num bounds_particleCount.min) := by
  constructor
  · rfl
  · intro h
    rw [show (updateConfig defaultConfig
        { particleCount := some JSNum.undef }).particleCount
      = JSNum.undef from rfl] at h
    exact JSNum.noConfusion h

/-- C6 amended: `updateConfig` on an initialized configuration is a total
function (no error path) and, for each of the five numeric parameters: an
update key explicitly set to `undefined` is spread over the config and
skipped by the `!== undefined` guard, leaving that field `undefined` in the
returned configuration; a defined update value that fails numeric parsing
resolves to that parameter's minimum; a numeric update value resolves to its
clamp `max(min, min(max, q))` into the documented bounds; and every field
not overridden with an explicit `undefined` ends defined and within its
bounds. -/
theorem claim_C6_amended (config : SimConfig) (updates : ConfigUpdates) :
    fieldClampSpec updates.particleCount bounds_particleCount
      (updateConfig config updates).particleCount ∧
    fieldClampSpec updates.diskRotationSpeed bounds_diskRotationSpeed
      (updateConfig config updates).diskRotationSpeed ∧
    fieldClampSpec updates.lensingIntensity bounds_lensingIntensity
      (updateConfig config updates).lensingIntensity ∧
    fieldClampSpec updates.cameraSensitivity bounds_cameraSensitivity
      (updateConfig config updates).cameraSensitivity ∧
    fieldClampSpec updates.bloomStrength bounds_bloomStrength
      (updateConfig config updates).bloomStrength :=
  ⟨clampField_spec _ config.particleCount _ (by norm_num [bounds_particleCount]),
   clampField_spec _ config.diskRotationSpeed _ (by norm_num [bounds_diskRotationSpeed]),
   clampField_spec _ config.lensingIntensity _ (by norm_num [bounds_lensingIntensity]),
   clampField_spec _ config.cameraSensitivity _ (by norm_num [bounds_cameraSensitivity]),
   clampField_spec _ config.bloomStrength _ (by norm_num [bounds_bloomStrength])⟩

/-- Shared helper: the spawn position of a reset particle sits at distance
`spawnRadius + 2·u(k+2)` from the origin (the spherical radius). -/
theorem resetParticle_distance (spawnRadius : ℝ) (u : ℕ → ℝ) (k : ℕ)
    (h : 0 ≤ spawnRadius + u (k + 2) * 2) :
    distanceTo (resetParticle spawnRadius u k).pos ⟨0, 0, 0⟩ = spawnRadius + u (k + 2) * 2 := by
  have hθ := Real.sin_sq_add_cos_sq (u k * Real.pi * 2)
  have hφ := Real.sin_sq_add_cos_sq (Real.arccos (2 * u (k + 1) - 1))
  simp only [resetParticle, distanceTo]
  rw [show ((⟨0, 0, 0⟩ : Vec3).x -
        (spawnRadius + u (k + 2) * 2) * Real.sin (Real.arccos (2 * u (k + 1) - 1)) *
          Real.cos (u k * Real.pi * 2)) *
      ((⟨0, 0, 0⟩ : Vec3).x -
        (spawnRadius + u (k + 2) * 2) * Real.sin (Real.arccos (2 * u (k + 1) - 1)) *
          Real.cos (u k * Real.pi * 2)) +
      ((⟨0, 0, 0⟩ : Vec3).y -
        (spawnRadius + u (k + 2) * 2) * Real.sin (Real.arccos (2 * u (k + 1) - 1)) *
          Real.sin (u k * Real.pi * 2)) *
      ((⟨0, 0, 0⟩ : Vec3).y -
        (spawnRadius + u (k + 2) * 2) * Real.sin (Real.arccos (2 * u (k + 1) - 1)) *
          Real.sin (u k * Real.pi * 2)) +
      ((⟨0, 0, 0⟩ : Vec3).z -
        (spawnRadius + u (k + 2) * 2) * Real.cos (Real.arccos (2 * u (k + 1) - 1))) *
      ((⟨0, 0, 0⟩ : Vec3).z -
        (spawnRadius + u (k + 2) * 2) * Real.cos (Real.arccos (2 * u (k + 1) - 1))) =
      (spawnRadius + u (k + 2) * 2) ^ 2 from by
    show (0 - _) * (0 - _) + (0 - _) * (0 - _) + (0 - _) * (0 - _) = _
    linear_combination ((spawnRadius + u (k + 2) * 2) *
        Real.sin (Real.arccos (2 * u (k + 1) - 1))) ^ 2 * hθ +
      (spawnRadius + u (k + 2) * 2) ^ 2 * hφ]
  exact Real.sqrt_sq h

/-- C8: for any random draws in `[0,1)`, `resetParticle` places the particle
at distance `spawnRadius + 2U ∈ [spawnRadius, spawnRadius+2]` from the
origin, in the spherical form with azimuth `2πU ∈ [0, 2π)` and polar angle
`acos(2U−1)`; each velocity component lies in `[−0.05, 0.05]`, the color is
exactly `(0.8, 0.6, 0.4)`, and the size lies in `[2, 4]`. -/
theorem claim_C8_resetParticle (spawnRadius : ℝ) (u : ℕ → ℝ) (k : ℕ)
    (hspawn : 0 ≤ spawnRadius) (hu : ∀ n, 0 ≤ u n ∧ u n < 1) :
    (distanceTo (resetParticle spawnRadius u k).pos ⟨0, 0, 0⟩ = spawnRadius + u (k + 2) * 2 ∧
      spawnRadius ≤ distanceTo (resetParticle spawnRadius u k).pos ⟨0, 0, 0⟩ ∧
      distanceTo (resetParticle spawnRadius u k).pos ⟨0, 0, 0⟩ ≤ spawnRadius + 2) ∧
    (0 ≤ u k * Real.pi * 2 ∧ u k * Real.pi * 2 < 2 * Real.pi) ∧
    (resetParticle spawnRadius u k).pos =
      ⟨(spawnRadius + u (k + 2) * 2) * Real.sin (Real.arccos (2 * u (k + 1) - 1)) *
          Real.cos (u k * Real.pi * 2),
        (spawnRadius + u (k + 2) * 2) * Real.sin (Real.arccos (2 * u (k + 1) - 1)) *
          Real.sin (u k * Real.pi * 2),
        (spawnRadius + u (k + 2) * 2) * Real.cos (Real.arccos (2 * u (k + 1) - 1))⟩ ∧
    (-0.05 ≤ (resetParticle spawnRadius u k).vel.x ∧
      (resetParticle spawnRadius u k).vel.x ≤ 0.05) ∧
    (-0.05 ≤ (resetParticle spawnRadius u k).vel.y ∧
      (resetParticle spawnRadius u k).vel.y ≤ 0.05) ∧
    (-0.05 ≤ (resetParticle spawnRadius u k).vel.z ∧
      (resetParticle spawnRadius u k).vel.z ≤ 0.05) ∧
    (resetParticle spawnRadius u k).color = ⟨0.8, 0.6, 0.4⟩ ∧
    (2 ≤ (resetParticle spawnRadius u k).size ∧ (resetParticle spawnRadius u k).size ≤ 4) := by
  have hr : 0 ≤ spawnRadius + u (k + 2) * 2 := by nlinarith [(hu (k + 2)).1]
  have hdist := resetParticle_distance spawnRadius u k hr
  refine ⟨⟨hdist, ?_, ?_⟩, ⟨?_, ?_⟩, rfl, ⟨?_, ?_⟩, ⟨?_, ?_⟩, ⟨?_, ?_⟩, rfl, ⟨?_, ?_⟩⟩
  · rw [hdist]; nlinarith [(hu (k + 2)).1]
  · rw [hdist]; nlinarith [(hu (k + 2)).2]
  · exact mul_nonneg (mul_nonneg (hu k).1 Real.pi_pos.le) (by norm_num)
  · nlinarith [Real.pi_pos, (hu k).1, (hu k).2]
  · simp only [resetParticle]; nlinarith [(hu (k + 3)).1, (hu (k + 3)).2]
  · simp only [resetParticle]; nlinarith [(hu (k + 3)).1, (hu (k + 3)).2]
  · simp only [resetParticle]; nlinarith [(hu (k + 4)).1, (hu (k + 4)).2]
  · simp only [resetParticle]; nlinarith [(hu (k + 4)).1, (hu (k + 4)).2]
  · simp only [resetParticle]; nlinarith [(hu (k + 5)).1, (hu (k + 5)).2]
  · simp only [resetParticle]; nlinarith [(hu (k + 5)).1, (hu (k + 5)).2]
  · simp only [resetParticle]; nlinarith [(hu (k + 6)).1]
  · simp only [resetParticle]; nlinarith [(hu (k + 6)).2]

/-- C8 witness: the default spawn radius `8` with the all-zero draw stream. -/
theorem claim_C8_resetParticle_witness :
    (0 : ℝ) ≤ 8 ∧ (∀ n : ℕ, (0 : ℝ) ≤ 0 ∧ (0 : ℝ) < 1) ∧
    distanceTo (resetParticle 8 (fun _ => 0) 0).pos ⟨0, 0, 0⟩ = 8 + 0 * 2 :=
  ⟨by norm_num, fun n => by norm_num,
    (claim_C8_resetParticle 8 (fun _ => 0) 0 (by norm_num) (fun n => by norm_num)).1.1⟩

/-- C7: `setParticleCount` returns exactly `count` particles; data at every
index below `min(old, new)` is preserved unchanged; when growing, every new
index `j ∈ [oldCount, newCount)` holds exactly `resetParticle`'s output for
that index (hence no NaN in the real-valued model) at distance
`≥ spawnRadius` from the origin; when shrinking it truncates to the
preserved prefix. -/
theorem claim_C7_setParticleCount (spawnRadius : ℝ) (u : ℕ → ℝ) (count : ℕ)
    (ps : List Particle) (hspawn : 0 ≤ spawnRadius) (hu : ∀ n, 0 ≤ u n) :
    (setParticleCount spawnRadius u count ps).length = count ∧
    (∀ i, i < count → i < ps.length →
      (setParticleCount spawnRadius u count ps).getD i defaultParticle =
        ps.getD i defaultParticle) ∧
    (ps.length < count → ∀ j, ps.length ≤ j → j < count →
      (setParticleCount spawnRadius u count ps).getD j defaultParticle =
        resetParticle spawnRadius u (7 * j) ∧
      spawnRadius ≤ distanceTo
        ((setParticleCount spawnRadius u count ps).getD j defaultParticle).pos ⟨0, 0, 0⟩) ∧
    (count < ps.length → setParticleCount spawnRadius u count ps = ps.take count) := by
  unfold setParticleCount
  by_cases heq : count = ps.length
  · rw [if_pos heq]
    refine ⟨heq.symm, fun i _ _ => rfl, fun hlt => absurd heq (by omega), fun hlt => ?_⟩
    omega
  · rw [if_neg heq]
    by_cases hlt : ps.length < count
    · rw [if_pos hlt]
      refine ⟨?_, ?_, ?_, ?_⟩
      · simp only [List.length_append, List.length_map, List.length_range]
        omega
      · intro i _ hi
        simp [List.getD_eq_getElem?_getD, List.getElem?_append_left hi]
      · intro _ j hj hj2
        have hget : (ps ++ (List.range (count - ps.length)).map
            (fun j => resetParticle spawnRadius u (7 * (ps.length + j)))).getD j defaultParticle =
            resetParticle spawnRadius u (7 * j) := by
          rw [List.getD_eq_getElem?_getD, List.getElem?_append_right hj,
            List.getElem?_map, List.getElem?_range (by omega)]
          simp only [Option.map_some', Option.getD_some]
          congr 1
          omega
        refine ⟨hget, ?_⟩
        rw [hget, resetParticle_distance spawnRadius u (7 * j) (by nlinarith [hu (7 * j + 2)])]
        nlinarith [hu (7 * j + 2)]
      · intro hcon
        omega
    · rw [if_neg hlt]
      have hc : count < ps.length := by omega
      refine ⟨?_, ?_, fun h => absurd h hlt, fun _ => rfl⟩
      · rw [List.length_take]
        omega
      · intro i hi _
        rw [List.getD_eq_getElem?_getD, List.getElem?_take_of_lt hi,
          List.getD_eq_getElem?_getD]

/-- C7 witness: growing a one-particle system to two particles with the
default spawn radius and the all-zero draw stream. -/
theorem claim_C7_setParticleCount_witness :
    (0 : ℝ) ≤ 8 ∧ (∀ n : ℕ, (0 : ℝ) ≤ 0) ∧
    (setParticleCount 8 (fun _ => 0) 2 [defaultParticle]).length = 2 :=
  ⟨by norm_num, fun n => le_refl 0,
    (claim_C7_setParticleCount 8 (fun _ => 0) 2 [defaultParticle] (by norm_num)
      (fun n => le_refl 0)).1⟩

/-- C1 counterexample: one particle at `(2,0,0)` with zero velocity, black
hole at the origin with `eventHorizonRadius = 1`, `deltaTime = 0.4`.  The
horizon check sees distance `2 ≥ 1` and does not respawn, but the integration
then moves the particle to the origin, so after `update` returns its distance
to the black hole is `0 < eventHorizonRadius`. -/
theorem claim_C1_counterexample :
    distanceTo (((particleSystemUpdate 1 8 (2 / 5) ⟨0, 0, 0⟩ (fun _ => 0)
        [⟨⟨2, 0, 0⟩, ⟨0, 0, 0⟩, ⟨0.8, 0.6, 0.4⟩, 2⟩]).getD 0 defaultParticle).pos) ⟨0, 0, 0⟩
      < 1 := by
  have h4 : Real.sqrt 4 = 2 := by
    rw [show (4 : ℝ) = 2 ^ 2 by norm_num, Real.sqrt_sq (by norm_num : (0:ℝ) ≤ 2)]
  have h0 : Real.sqrt 0 = 0 := Real.sqrt_zero
  simp only [particleSystemUpdate, updateLoop, updateParticle, List.getD_cons_zero]
  norm_num [h4, h0, distanceTo, G, blackHoleMass]

/-- Shared helper: the particle at index `i` of the update loop started at
index `j` is the single-particle update with random block `7·(j+i)`. -/
theorem updateLoop_getD (ehr spawn dt : ℝ) (bh : Vec3) (u : ℕ → ℝ) :
    ∀ (ps : List Particle) (j i : ℕ), i < ps.length →
      (updateLoop ehr spawn dt bh u j ps).getD i defaultParticle =
        updateParticle ehr spawn dt bh u (7 * (j + i)) (ps.getD i defaultParticle) := by
  intro ps
  induction ps with
  | nil => intro j i hi; simp at hi
  | cons p rest ih =>
    intro j i hi
    cases i with
    | zero => simp [updateLoop]
    | succ i' =>
      simp only [updateLoop, List.getD_cons_succ]
      rw [ih (j + 1) i' (by simpa using hi)]
      have harith : j + 1 + i' = j + (i' + 1) := by omega
      rw [harith]

/-- Shared helper: a particle inside the event horizon at the check is
respawned. -/
theorem updateParticle_inside (ehr spawn dt : ℝ) (bh : Vec3) (u : ℕ → ℝ) (k : ℕ)
    (p : Particle) (h : distanceTo p.pos bh < ehr) :
    updateParticle ehr spawn dt bh u k p = resetParticle spawn u k := by
  simp only [updateParticle]
  rw [if_pos (by simpa [distanceTo] using h)]

/-- C1 amended: a particle whose distance to the black hole (at the origin,
as the simulation always passes) is below `eventHorizonRadius` at the
per-frame check is respawned — its post-update slot is exactly
`resetParticle`'s output — and ends that update at distance
`spawnRadius + 2U ≥ spawnRadius ≥ eventHorizonRadius` from the black hole.
The original claim fails for particles outside the horizon at the check: the
integration that follows can carry them inside, where they stay until the
next frame's check (see the counterexample). -/
theorem claim_C1_amended (eventHorizonRadius spawnRadius deltaTime : ℝ) (u : ℕ → ℝ)
    (ps : List Particle) (i : ℕ)
    (hspawn : 0 ≤ spawnRadius) (hse : eventHorizonRadius ≤ spawnRadius)
    (hu : ∀ n, 0 ≤ u n) (hi : i < ps.length)
    (hinside : distanceTo (ps.getD i defaultParticle).pos ⟨0, 0, 0⟩ < eventHorizonRadius) :
    (particleSystemUpdate eventHorizonRadius spawnRadius deltaTime ⟨0, 0, 0⟩ u ps).getD i
        defaultParticle = resetParticle spawnRadius u (7 * i) ∧
    distanceTo ((particleSystemUpdate eventHorizonRadius spawnRadius deltaTime ⟨0, 0, 0⟩
        u ps).getD i defaultParticle).pos ⟨0, 0, 0⟩ = spawnRadius + u (7 * i + 2) * 2 ∧
    spawnRadius ≤ distanceTo ((particleSystemUpdate eventHorizonRadius spawnRadius deltaTime
        ⟨0, 0, 0⟩ u ps).getD i defaultParticle).pos ⟨0, 0, 0⟩ ∧
    eventHorizonRadius ≤ distanceTo ((particleSystemUpdate eventHorizonRadius spawnRadius
        deltaTime ⟨0, 0, 0⟩ u ps).getD i defaultParticle).pos ⟨0, 0, 0⟩ := by
  have hreset : (particleSystemUpdate eventHorizonRadius spawnRadius deltaTime ⟨0, 0, 0⟩
      u ps).getD i defaultParticle = resetParticle spawnRadius u (7 * i) := by
    rw [particleSystemUpdate, updateLoop_getD eventHorizonRadius spawnRadius deltaTime
      ⟨0, 0, 0⟩ u ps 0 i hi, Nat.zero_add]
    exact updateParticle_inside eventHorizonRadius spawnRadius deltaTime ⟨0, 0, 0⟩ u
      (7 * i) (ps.getD i defaultParticle) hinside
  have hr : 0 ≤ spawnRadius + u (7 * i + 2) * 2 := by nlinarith [hu (7 * i + 2)]
  have hdist : distanceTo ((particleSystemUpdate eventHorizonRadius spawnRadius deltaTime
      ⟨0, 0, 0⟩ u ps).getD i defaultParticle).pos ⟨0, 0, 0⟩
      = spawnRadius + u (7 * i + 2) * 2 := by
    rw [hreset, resetParticle_distance spawnRadius u (7 * i) hr]
  refine ⟨hreset, hdist, ?_, ?_⟩
  · rw [hdist]; nlinarith [hu (7 * i + 2)]
  · rw [hdist]; nlinarith [hu (7 * i + 2)]

/-- C1 amended witness: a particle at `(1/2, 0, 0)`, inside the unit event
horizon, with the default spawn radius `8` — it is respawned and ends the
update at distance at least `8` (hence at least `1`) from the black hole. -/
theorem claim_C1_amended_witness :
    (0 : ℝ) ≤ 8 ∧ (1 : ℝ) ≤ 8 ∧ (∀ n : ℕ, (0 : ℝ) ≤ 0) ∧
    0 < ([⟨⟨1/2, 0, 0⟩, ⟨0, 0, 0⟩, ⟨0, 0, 0⟩, 0⟩] : List Particle).length ∧
    distanceTo (([⟨⟨1/2, 0, 0⟩, ⟨0, 0, 0⟩, ⟨0, 0, 0⟩, 0⟩] : List Particle).getD 0
      defaultParticle).pos ⟨0, 0, 0⟩ < 1 ∧
    (particleSystemUpdate 1 8 1 ⟨0, 0, 0⟩ (fun _ => 0)
      [⟨⟨1/2, 0, 0⟩, ⟨0, 0, 0⟩, ⟨0, 0, 0⟩, 0⟩]).getD 0 defaultParticle
      = resetParticle 8 (fun _ => 0) 0 ∧
    8 ≤ distanceTo ((particleSystemUpdate 1 8 1 ⟨0, 0, 0⟩ (fun _ => 0)
      [⟨⟨1/2, 0, 0⟩, ⟨0, 0, 0⟩, ⟨0, 0, 0⟩, 0⟩]).getD 0 defaultParticle).pos ⟨0, 0, 0⟩ ∧
    1 ≤ distanceTo ((particleSystemUpdate 1 8 1 ⟨0, 0, 0⟩ (fun _ => 0)
      [⟨⟨1/2, 0, 0⟩, ⟨0, 0, 0⟩, ⟨0, 0, 0⟩, 0⟩]).getD 0 defaultParticle).pos ⟨0, 0, 0⟩ := by
  have hin : distanceTo (([⟨⟨1/2, 0, 0⟩, ⟨0, 0, 0⟩, ⟨0, 0, 0⟩, 0⟩] : List Particle).getD 0
      defaultParticle).pos ⟨0, 0, 0⟩ < 1 := by
    simp only [List.getD_cons_zero, distanceTo]
    rw [show ((⟨0,0,0⟩ : Vec3).x - (⟨⟨1/2, 0, 0⟩, ⟨0, 0, 0⟩, ⟨0, 0, 0⟩, 0⟩ : Particle).pos.x) *
        ((⟨0,0,0⟩ : Vec3).x - (⟨⟨1/2, 0, 0⟩, ⟨0, 0, 0⟩, ⟨0, 0, 0⟩, 0⟩ : Particle).pos.x) +
        ((⟨0,0,0⟩ : Vec3).y - (⟨⟨1/2, 0, 0⟩, ⟨0, 0, 0⟩, ⟨0, 0, 0⟩, 0⟩ : Particle).pos.y) *
        ((⟨0,0,0⟩ : Vec3).y - (⟨⟨1/2, 0, 0⟩, ⟨0, 0, 0⟩, ⟨0, 0, 0⟩, 0⟩ : Particle).pos.y) +
        ((⟨0,0,0⟩ : Vec3).z - (⟨⟨1/2, 0, 0⟩, ⟨0, 0, 0⟩, ⟨0, 0, 0⟩, 0⟩ : Particle).pos.z) *
        ((⟨0,0,0⟩ : Vec3).z - (⟨⟨1/2, 0, 0⟩, ⟨0, 0, 0⟩, ⟨0, 0, 0⟩, 0⟩ : Particle).pos.z) =
        (1/2 : ℝ) ^ 2 from by norm_num]
    rw [Real.sqrt_sq (by norm_num : (0:ℝ) ≤ 1/2)]
    norm_num
  have h := claim_C1_amended 1 8 1 (fun _ => 0)
    [⟨⟨1/2, 0, 0⟩, ⟨0, 0, 0⟩, ⟨0, 0, 0⟩, 0⟩] 0
    (by norm_num) (by norm_num) (fun n => le_refl 0) (by norm_num) hin
  exact ⟨by norm_num, by norm_num, fun n => le_refl 0, by norm_num, hin,
    h.1, h.2.2.1, h.2.2.2⟩

theorem sum_gt_of_forall_gt (l : List ℚ) (b : ℚ) (h : ∀ s ∈ l, b < s) (hne : l ≠ []) :
    b * l.length < l.sum := by
  induction l with
  | nil => simp at hne
  | cons a rest ih =>
    rcases eq_or_ne rest [] with h0 | h0
    · subst h0; simpa using h a (by simp)
    · have hrest := ih (fun s hs => h s (by simp [hs])) h0
      have ha := h a (by simp)
      simp only [List.sum_cons, List.length_cons]
      push_cast
      nlinarith [hrest]

theorem stepGov_slow_noTrigger (g : GovState) (s : ℚ)
    (hmon : g.monitor.isMonitoring = true)
    (hdeg : g.monitor.isDegraded = false)
    (hs : degradationThreshold < s)
    (hcount : g.monitor.degradationFrameCount + 1 < degradationFrameThreshold)
    (hlen : g.monitor.frameTimes.length + 1 ≤ g.monitor.windowSize) :
    (stepGov g s).monitor.frameTimes = g.monitor.frameTimes ++ [s] ∧
    (stepGov g s).monitor.degradationFrameCount = g.monitor.degradationFrameCount + 1 ∧
    (stepGov g s).monitor.isDegraded = false ∧
    (stepGov g s).monitor.isMonitoring = true ∧
    (stepGov g s).monitor.windowSize = g.monitor.windowSize ∧
    (stepGov g s).particleCount = g.particleCount := by
  have hkept : ¬(g.monitor.windowSize < g.monitor.frameTimes.length + 1) := by omega
  have hc : ¬(degradationFrameThreshold ≤ g.monitor.degradationFrameCount + 1) := by omega
  simp [stepGov, recordFrame_eq g.monitor s hmon, checkPerformance, hkept, hs, hdeg, hc, hmon]

theorem feedGov_slow_run (l : List ℚ) : ∀ (g : GovState),
    g.monitor.isMonitoring = true → g.monitor.isDegraded = false →
    (∀ s ∈ l, degradationThreshold < s) →
    g.monitor.degradationFrameCount + l.length < degradationFrameThreshold →
    g.monitor.frameTimes.length + l.length ≤ g.monitor.windowSize →
    (feedGov g l).monitor.frameTimes = g.monitor.frameTimes ++ l ∧
    (feedGov g l).monitor.degradationFrameCount
      = g.monitor.degradationFrameCount + l.length ∧
    (feedGov g l).monitor.isDegraded = false ∧
    (feedGov g l).monitor.isMonitoring = true ∧
    (feedGov g l).monitor.windowSize = g.monitor.windowSize ∧
    (feedGov g l).particleCount = g.particleCount := by
  induction l with
  | nil =>
    intro g h1 h2 _ _ _
    simp [feedGov, h1, h2]
  | cons s rest ih =>
    intro g hmon hdeg hslow hcount hlen
    simp only [List.length_cons] at hcount hlen
    obtain ⟨hf, hc2, hd, hm2, hw, hp⟩ := stepGov_slow_noTrigger g s hmon hdeg
      (hslow s (by simp)) (by omega) (by omega)
    obtain ⟨rf, rc, rd, rm, rw', rp⟩ := ih (stepGov g s) hm2 hd
      (fun t ht => hslow t (by simp [ht]))
      (by rw [hc2]; omega)
      (by rw [hf, hw]; simp only [List.length_append, List.length_singleton]; omega)
    have hfold : feedGov g (s :: rest) = feedGov (stepGov g s) rest := by
      simp [feedGov]
    rw [hfold]
    refine ⟨?_, ?_, rd, rm, ?_, ?_⟩
    · rw [rf, hf, List.append_assoc, List.singleton_append]
    · simp only [List.length_cons]
      rw [rc, hc2]
      omega
    · rw [rw', hw]
    · rw [rp, hp]

theorem getPerformanceRecommendation_congr (m m' : Monitor)
    (h : m.frameTimes = m'.frameTimes) :
    getPerformanceRecommendation m = getPerformanceRecommendation m' := by
  simp [getPerformanceRecommendation, getAverageFrameTime, h]

theorem stepGov_degrade (g : GovState) (s : ℚ)
    (hmon : g.monitor.isMonitoring = true)
    (hdeg : g.monitor.isDegraded = false)
    (hs : degradationThreshold < s)
    (hcount : g.monitor.degradationFrameCount + 1 = degradationFrameThreshold)
    (hlen : g.monitor.frameTimes.length + 1 ≤ g.monitor.windowSize) :
    (stepGov g s).monitor.frameTimes = g.monitor.frameTimes ++ [s] ∧
    (stepGov g s).monitor.isDegraded = true ∧
    (stepGov g s).monitor.isMonitoring = true ∧
    (stepGov g s).particleCount = reduceParticleCount g.particleCount
      (getPerformanceRecommendation (stepGov g s).monitor) := by
  have hkept : ¬(g.monitor.windowSize < g.monitor.frameTimes.length + 1) := by omega
  have hc : degradationFrameThreshold ≤ g.monitor.degradationFrameCount + 1 := by omega
  have hnz : ¬(g.monitor.degradationFrameCount + 1 = 0) := by omega
  simp [stepGov, recordFrame_eq g.monitor s hmon, checkPerformance, hkept, hs, hdeg, hc,
    hnz, hmon, applyPerfEvent]
  exact congrArg (reduceParticleCount g.particleCount)
    (getPerformanceRecommendation_congr _ _ rfl)

theorem stepGov_fast_preserves (g : GovState) (s : ℚ)
    (hmon : g.monitor.isMonitoring = true)
    (hs : ¬(degradationThreshold < s)) :
    (stepGov g s).particleCount = g.particleCount ∧
    (stepGov g s).monitor.isMonitoring = true := by
  simp only [stepGov, recordFrame_eq g.monitor s hmon, checkPerformance, hs]
  split_ifs <;> simp_all [applyPerfEvent, degradationFrameThreshold]

theorem stepGov_fast_recovered (g : GovState) (s : ℚ)
    (hmon : g.monitor.isMonitoring = true)
    (hs : ¬(degradationThreshold < s))
    (havg : getAverageFrameTime (stepGov g s).monitor < targetFrameTime) :
    (stepGov g s).monitor.isDegraded = false := by
  simp only [stepGov, recordFrame_eq g.monitor s hmon, checkPerformance, hs] at havg ⊢
  split_ifs at havg ⊢ <;> simp_all [getAverageFrameTime, degradationFrameThreshold]
  all_goals
    rename_i hwin himp
    cases hd : g.monitor.isDegraded with
    | false => rfl
    | true => exact absurd (himp hd) (not_le.mpr havg)

theorem feedGov_fast_preserves (l : List ℚ) : ∀ g : GovState,
    g.monitor.isMonitoring = true → (∀ s ∈ l, ¬(degradationThreshold < s)) →
    (feedGov g l).particleCount = g.particleCount ∧
    (feedGov g l).monitor.isMonitoring = true := by
  induction l with
  | nil => intro g h1 _; exact ⟨rfl, h1⟩
  | cons s rest ih =>
    intro g hmon hfast
    have hstep := stepGov_fast_preserves g s hmon (hfast s (by simp))
    have hrest := ih (stepGov g s) hstep.2 (fun t ht => hfast t (by simp [ht]))
    have hfold : feedGov g (s :: rest) = feedGov (stepGov g s) rest := by
      simp [feedGov]
    rw [hfold]
    exact ⟨hrest.1.trans hstep.1, hrest.2⟩

theorem feedGov_append (g : GovState) (l1 l2 : List ℚ) :
    feedGov g (l1 ++ l2) = feedGov (feedGov g l1) l2 := by
  simp [feedGov, List.foldl_append]

theorem claim_C2_degradation_hysteresis (slow recover : List ℚ) (c0 : ℚ)
    (hlen : slow.length = 30)
    (hslow : ∀ s ∈ slow, degradationThreshold < s)
    (hrecover : ∀ s ∈ recover, s < targetFrameTime)
    (hc1 : 100 ≤ c0) (hc2 : c0 ≤ 5000)
    (havg : getAverageFrameTime (feedGov (feedGov (startGov c0) slow) recover).monitor
      < targetFrameTime) :
    (startGov c0).monitor.isDegraded = false ∧
    (feedGov (startGov c0) slow).monitor.isDegraded = true ∧
    (getPerformanceRecommendation (feedGov (startGov c0) slow).monitor).reduction = 0.5 ∧
    (feedGov (startGov c0) slow).particleCount = max 100 ((⌊c0 * (1 - 0.5)⌋ : ℤ) : ℚ) ∧
    100 ≤ (feedGov (startGov c0) slow).particleCount ∧
    (feedGov (feedGov (startGov c0) slow) recover).monitor.isDegraded = false ∧
    (feedGov (feedGov (startGov c0) slow) recover).particleCount
      = (feedGov (startGov c0) slow).particleCount := by
  rcases List.eq_nil_or_concat slow with hnil | ⟨init, last, hconcat⟩
  · rw [hnil] at hlen; simp at hlen
  subst hconcat
  simp only [List.concat_eq_append] at hlen hslow havg ⊢
  have hinitlen : init.length = 29 := by
    simp only [List.length_append, List.length_singleton] at hlen; omega
  have hmem_init : ∀ s ∈ init, degradationThreshold < s := fun s hs =>
    hslow s (List.mem_append_left _ hs)
  have hlast : degradationThreshold < last :=
    hslow last (List.mem_append_right _ (by simp))
  obtain ⟨pf, pc2, pd, pm, pw, pp⟩ := feedGov_slow_run init (startGov c0)
    rfl rfl hmem_init
    (by show 0 + init.length < degradationFrameThreshold
        rw [hinitlen, degradationFrameThreshold]; omega)
    (by show 0 + init.length ≤ 60
        rw [hinitlen]; omega)
  rw [show (startGov c0).monitor.frameTimes = [] from rfl, List.nil_append] at pf
  rw [show (startGov c0).monitor.degradationFrameCount = 0 from rfl, Nat.zero_add] at pc2
  rw [show (startGov c0).monitor.windowSize = 60 from rfl] at pw
  rw [show (startGov c0).particleCount = c0 from rfl] at pp
  obtain ⟨df, dd, dm, dp⟩ := stepGov_degrade (feedGov (startGov c0) init) last pm pd hlast
    (by rw [pc2, hinitlen, degradationFrameThreshold])
    (by rw [pf, pw, hinitlen]; omega)
  have e1 : feedGov (startGov c0) (init ++ [last])
      = stepGov (feedGov (startGov c0) init) last := by
    rw [feedGov_append]; simp [feedGov]
  have hframesS : (stepGov (feedGov (startGov c0) init) last).monitor.frameTimes
      = init ++ [last] := by rw [df, pf]
  have hL : (((init ++ [last]).length : ℕ) : ℚ) = 30 := by rw [hlen]; norm_num
  have havg50 : degradationThreshold
      < getAverageFrameTime (stepGov (feedGov (startGov c0) init) last).monitor := by
    rw [getAverageFrameTime, hframesS, if_neg (by simp), hL,
      lt_div_iff (by norm_num : (0:ℚ) < 30)]
    have h1500 := sum_gt_of_forall_gt (init ++ [last]) degradationThreshold hslow (by simp)
    rw [hL] at h1500
    linarith
  have havg50' : (50 : ℚ)
      < getAverageFrameTime (stepGov (feedGov (startGov c0) init) last).monitor := by
    rw [show degradationThreshold = (50 : ℚ) from rfl] at havg50
    exact havg50
  have hrecS : getPerformanceRecommendation
      (stepGov (feedGov (startGov c0) init) last).monitor
      = ⟨"reduce_particles_aggressive", 0.5⟩ := by
    simp only [getPerformanceRecommendation]
    rw [if_pos havg50']
  rw [pp, hrecS] at dp
  have hreduce : reduceParticleCount c0 ⟨"reduce_particles_aggressive", 0.5⟩
      = max 100 ((⌊c0 * (1 - 0.5)⌋ : ℤ) : ℚ) := by
    simp only [reduceParticleCount]
    rw [if_pos (by decide)]
    have hfl : ((⌊c0 * (1 - 0.5)⌋ : ℤ) : ℚ) ≤ c0 * (1 - 0.5) := Int.floor_le _
    have hv5000 : max (100:ℚ) ((⌊c0 * (1 - 0.5)⌋ : ℤ) : ℚ) ≤ 5000 := by
      apply max_le (by norm_num)
      nlinarith
    show clampValue _ bounds_particleCount.min bounds_particleCount.max = _
    simp only [clampValue, bounds_particleCount]
    rw [min_eq_right hv5000, max_eq_right (le_max_left _ _)]
  rw [hreduce] at dp
  have hfast : ∀ s ∈ recover, ¬(degradationThreshold < s) := by
    intro s hs
    have h := hrecover s hs
    rw [targetFrameTime] at h
    rw [degradationThreshold]
    push_neg
    have h50 : (33.33 : ℚ) ≤ 50 := by norm_num
    linarith
  have htd : targetFrameTime < degradationThreshold := by
    rw [targetFrameTime, degradationThreshold]; norm_num
  refine ⟨rfl, ?_, ?_, ?_, ?_, ?_, ?_⟩
  · rw [e1]; exact dd
  · rw [e1, hrecS]
  · rw [e1]; exact dp
  · rw [e1, dp]; exact le_max_left _ _
  · rcases List.eq_nil_or_concat recover with hrnil | ⟨rinit, rlast, hrconcat⟩
    · exfalso
      rw [hrnil] at havg
      rw [show feedGov (feedGov (startGov c0) (init ++ [last])) []
          = feedGov (startGov c0) (init ++ [last]) from rfl, e1] at havg
      linarith
    · subst hrconcat
      have e2 : feedGov (feedGov (startGov c0) (init ++ [last])) (rinit.concat rlast)
          = stepGov (feedGov (feedGov (startGov c0) (init ++ [last])) rinit) rlast := by
        rw [List.concat_eq_append, feedGov_append]; simp [feedGov]
      rw [e2]
      apply stepGov_fast_recovered
      · rw [e1]
        exact (feedGov_fast_preserves rinit (stepGov (feedGov (startGov c0) init) last) dm
          (fun t ht => hfast t (by rw [List.concat_eq_append]
                                   exact List.mem_append_left _ ht))).2
      · exact hfast rlast (by rw [List.concat_eq_append]
                              exact List.mem_append_right _ (by simp))
      · rw [← e2]; exact havg
  · rw [e1]
    rcases List.eq_nil_or_concat recover with hrnil | _
    · rw [hrnil]; rfl
    · rw [← e1]
      exact (feedGov_fast_preserves recover (feedGov (startGov c0) (init ++ [last]))
        (by rw [e1]; exact dm) hfast).1

theorem stepGov_monitor_fields (g : GovState) (s : ℚ)
    (hmon : g.monitor.isMonitoring = true) :
    (stepGov g s).monitor.frameTimes =
      (if g.monitor.windowSize < (g.monitor.frameTimes ++ [s]).length
        then (g.monitor.frameTimes ++ [s]).tail else g.monitor.frameTimes ++ [s]) ∧
    (stepGov g s).monitor.isMonitoring = true ∧
    (stepGov g s).monitor.windowSize = g.monitor.windowSize := by
  refine ⟨recordFrame_frameTimes g.monitor s hmon, ?_, ?_⟩
  · show (recordFrame g.monitor s).1.isMonitoring = true
    rw [recordFrame_eq g.monitor s hmon, (checkPerformance_preserves _ _).2.2]
    exact hmon
  · show (recordFrame g.monitor s).1.windowSize = g.monitor.windowSize
    rw [recordFrame_eq g.monitor s hmon, (checkPerformance_preserves _ _).2.1]

theorem feedGov_frames (l : List ℚ) : ∀ g : GovState,
    g.monitor.isMonitoring = true →
    g.monitor.frameTimes.length + l.length ≤ g.monitor.windowSize →
    (feedGov g l).monitor.frameTimes = g.monitor.frameTimes ++ l ∧
    (feedGov g l).monitor.isMonitoring = true ∧
    (feedGov g l).monitor.windowSize = g.monitor.windowSize := by
  induction l with
  | nil => intro g h1 _; exact ⟨(List.append_nil _).symm, h1, rfl⟩
  | cons s rest ih =>
    intro g hmon hlen
    simp only [List.length_cons] at hlen
    obtain ⟨sf, sm, sw⟩ := stepGov_monitor_fields g s hmon
    have hkept : ¬(g.monitor.windowSize < (g.monitor.frameTimes ++ [s]).length) := by
      simp only [List.length_append, List.length_singleton]
      omega
    rw [if_neg hkept] at sf
    obtain ⟨rf, rm, rw'⟩ := ih (stepGov g s) sm
      (by rw [sf, sw]; simp only [List.length_append, List.length_singleton]; omega)
    have hfold : feedGov g (s :: rest) = feedGov (stepGov g s) rest := by
      simp [feedGov]
    rw [hfold]
    refine ⟨?_, rm, rw'.trans sw⟩
    rw [rf, sf, List.append_assoc, List.singleton_append]

theorem claim_C2_degradation_hysteresis_witness :
    (List.replicate 30 (51:ℚ)).length = 30 ∧
    (∀ s ∈ List.replicate 30 (51:ℚ), degradationThreshold < s) ∧
    (∀ s ∈ List.replicate 16 (0:ℚ), s < targetFrameTime) ∧
    (100:ℚ) ≤ 1000 ∧ (1000:ℚ) ≤ 5000 ∧
    getAverageFrameTime (feedGov (feedGov (startGov 1000) (List.replicate 30 (51:ℚ)))
      (List.replicate 16 (0:ℚ))).monitor < targetFrameTime ∧
    (feedGov (startGov 1000) (List.replicate 30 (51:ℚ))).monitor.isDegraded = true ∧
    (feedGov (feedGov (startGov 1000) (List.replicate 30 (51:ℚ)))
      (List.replicate 16 (0:ℚ))).monitor.isDegraded = false := by
  have hslow : ∀ s ∈ List.replicate 30 (51:ℚ), degradationThreshold < s := by
    intro s hs
    rw [List.eq_of_mem_replicate hs]
    norm_num [degradationThreshold]
  have hrecover : ∀ s ∈ List.replicate 16 (0:ℚ), s < targetFrameTime := by
    intro s hs
    rw [List.eq_of_mem_replicate hs]
    norm_num [targetFrameTime]
  have hfr1 := feedGov_frames (List.replicate 30 (51:ℚ)) (startGov 1000) rfl
    (by simp [startGov, startMonitor, mkMonitor])
  have hfr2 := feedGov_frames (List.replicate 16 (0:ℚ))
    (feedGov (startGov 1000) (List.replicate 30 (51:ℚ))) hfr1.2.1
    (by rw [hfr1.1, hfr1.2.2]; simp [startGov, startMonitor, mkMonitor])
  have havg : getAverageFrameTime (feedGov (feedGov (startGov 1000)
      (List.replicate 30 (51:ℚ))) (List.replicate 16 (0:ℚ))).monitor < targetFrameTime := by
    rw [getAverageFrameTime, hfr2.1, hfr1.1]
    simp only [show (startGov 1000).monitor.frameTimes = [] from rfl, List.nil_append]
    rw [if_neg (by simp)]
    rw [List.sum_append, List.length_append]
    simp only [List.sum_replicate, List.length_replicate, smul_eq_mul]
    norm_num [targetFrameTime]
  have h := claim_C2_degradation_hysteresis (List.replicate 30 51) (List.replicate 16 0) 1000
    (by simp) hslow hrecover (by norm_num) (by norm_num) havg
  exact ⟨by simp, hslow, hrecover, by norm_num, by norm_num, havg, h.2.1, h.2.2.2.2.2.1⟩
